import Mathlib

/-!
Shallow embedding of the CDN manager (`SoftLayer/managers/cdn.py`) and the
purge CLI command (`SoftLayer/CLI/cdn/purge.py`).

Remote services are modelled as oracle functions passed to each operation;
each operation returns its result together with the number of remote calls
it issued, so that "no remote call is made" is a provable statement.
Python dicts are association lists built in source order; Python truthiness
of `str`-or-`None` arguments is the `truthy` predicate below.
-/

namespace SoftLayerCDN

/-- A JSON-like Python value as exchanged with the remote RPC service. -/
inductive PyVal where
  | str : String → PyVal
  | int : Int → PyVal
  | list : List PyVal → PyVal
  | dict : List (String × PyVal) → PyVal
  | null : PyVal

/-- The Python exceptions that the embedded code can raise. -/
inductive PyErr where
  | softLayerError : String → PyErr
  | valueError : String → PyErr
  | indexError : PyErr
  | typeError : String → PyErr
  | keyError : String → PyErr
deriving DecidableEq, Repr

/-- Python truthiness of a `str`-or-`None` argument: `None` and the empty
string are falsy, every non-empty string is truthy. -/
def truthy : Option String → Bool
  | Option.none => false
  | some s => decide (s ≠ "")

/-- A naive calendar datetime, as produced by `datetime.strptime`. -/
structure Datetime where
  year : Nat
  month : Nat
  day : Nat
  hour : Nat
  minute : Nat
  second : Nat
deriving DecidableEq, Repr

/-- Gregorian leap-year test. -/
def isLeap (y : Nat) : Bool :=
  (y % 4 == 0 && y % 100 != 0) || y % 400 == 0

/-- Number of days in a month of the proleptic Gregorian calendar. -/
def daysInMonth (y m : Nat) : Nat :=
  if m = 2 then (if isLeap y then 29 else 28)
  else if m = 4 ∨ m = 6 ∨ m = 9 ∨ m = 11 then 30
  else 31

/-- Value of a digit string. -/
def digitsToNat (cs : List Char) : Nat :=
  cs.foldl (fun acc c => acc * 10 + (c.toNat - 48)) 0

/-- Consume a run of decimal digits whose length lies in
`[minLen, maxLen]`, returning its value and the remaining input. -/
def parseNatToken (cs : List Char) (minLen maxLen : Nat) :
    Option (Nat × List Char) :=
  let ds := cs.takeWhile Char.isDigit
  let rest := cs.drop ds.length
  if minLen ≤ ds.length ∧ ds.length ≤ maxLen then
    some (digitsToNat ds, rest)
  else
    Option.none

/-- Consume one expected literal character. -/
def expectChar (c : Char) : List Char → Option (List Char)
  | [] => Option.none
  | x :: xs => if x = c then some xs else Option.none

/-- Split an input string into the six numeric fields of the fixed format
%Y-%m-%d %H:%M:%S (four-digit year, one-or-two-digit other fields,
literal separators, no trailing input). -/
def parseDatetimeFields (cs : List Char) : Option Datetime := do
  let (y, cs) ← parseNatToken cs 4 4
  let cs ← expectChar '-' cs
  let (mo, cs) ← parseNatToken cs 1 2
  let cs ← expectChar '-' cs
  let (d, cs) ← parseNatToken cs 1 2
  let cs ← expectChar ' ' cs
  let (h, cs) ← parseNatToken cs 1 2
  let cs ← expectChar ':' cs
  let (mi, cs) ← parseNatToken cs 1 2
  let cs ← expectChar ':' cs
  let (sec, cs) ← parseNatToken cs 1 2
  if cs = [] then some ⟨y, mo, d, h, mi, sec⟩ else Option.none

/-- Range validation performed by the `datetime` constructor: year at least
1, month 1..12, day within the month, hour 0..23, minute and second
0..59. -/
def validDatetime (d : Datetime) : Bool :=
  decide (1 ≤ d.year) && decide (1 ≤ d.month) && decide (d.month ≤ 12) &&
  decide (1 ≤ d.day) && decide (d.day ≤ daysInMonth d.year d.month) &&
  decide (d.hour ≤ 23) && decide (d.minute ≤ 59) && decide (d.second ≤ 59)

/-- Model of CPython `datetime.strptime` at the fixed format
"%Y-%m-%d %H:%M:%S" (an external stdlib collaborator of the source): a
string that does not match the format, or whose fields are out of range,
raises `ValueError`; otherwise the parsed datetime is returned. -/
def strptime (s : String) : Except PyErr Datetime :=
  match parseDatetimeFields s.data with
  | Option.none =>
      Except.error (PyErr.valueError
        ("time data " ++ s ++ " does not match format %Y-%m-%d %H:%M:%S"))
  | some d =>
      if validDatetime d then Except.ok d
      else
        Except.error (PyErr.valueError
          ("invalid datetime component in " ++ s))

/-- Days since the Unix epoch of a civil date (proleptic Gregorian,
year at least 1, month 1..12). -/
def daysFromCivil (y m d : Nat) : Int :=
  let yy := if m ≤ 2 then y - 1 else y
  let era := yy / 400
  let yoe := yy % 400
  let mp := (m + 9) % 12
  let doy := (153 * mp + 2) / 5 + (d - 1)
  let doe := yoe * 365 + yoe / 4 - yoe / 100 + doy
  (era * 146097 + doe : Int) - 719468

/-- Modelled from the spec: `utils.timestamp` (not under src/) converts a
resolved datetime to "the remote service's expected numeric timestamp
representation", its epoch representation in seconds. -/
def timestamp (d : Datetime) : Int :=
  86400 * daysFromCivil d.year d.month d.day +
    (3600 * d.hour + 60 * d.minute + d.second : Int)

/-- Modelled from the spec: `utils.days_to_datetime` (not under src/)
composed with `timestamp` yields, per the spec's window `[now - days, now]`
computed from the wall clock at call time, the epoch timestamp
`now - days` (in seconds, one day being 86400 seconds). `now` is the
epoch timestamp of the wall-clock time at call time, passed explicitly. -/
def days_to_datetime (now days : Int) : Int :=
  now - days * 86400

/-- Index 0 of a remote response collection: the first element, or an
`IndexError` when the collection is empty.  Paired with the count of one
remote call just made. -/
def unwrapCall (resp : List PyVal) : Except PyErr PyVal × Nat :=
  match resp with
  | [] => (Except.error PyErr.indexError, 1)
  | x :: _ => (Except.ok x, 1)

/-- Embeds `CDNManager.get_cdn`: calls `listDomainMappingByUniqueId` and
returns element 0 of the returned array (IndexError when empty). -/
def get_cdn (listDomainMappingByUniqueId : String → List PyVal)
    (unique_id : String) : Except PyErr PyVal :=
  let cdn_list := listDomainMappingByUniqueId unique_id
  match cdn_list with
  | [] => Except.error PyErr.indexError
  | x :: _ => Except.ok x

/-- Embeds the request-construction and validation part of
`CDNManager.add_origin`: the `new_origin` dict built in source field order,
`header` appended when truthy, and for `OBJECT_STORAGE` the bucket-name
check (raising `SoftLayerError` when the bucket name is falsy) followed by
the optional `fileExtension` field.  Returns the record submitted to
`createOriginPath`, or the raised error. -/
def add_origin_record (unique_id : PyVal)
    (path origin_address origin_type : String) (header : Option String)
    (port : Int) (protocol : String)
    (bucket_name file_extensions : Option String)
    (optimize_for cache_query : String) :
    Except PyErr (List (String × PyVal)) :=
  let new_origin : List (String × PyVal) :=
    [("uniqueId", unique_id),
     ("path", PyVal.str path),
     ("origin", PyVal.str origin_address),
     ("originType", PyVal.str origin_type),
     ("httpPort", PyVal.int port),
     ("protocol", PyVal.str protocol),
     ("performanceConfiguration", PyVal.str optimize_for),
     ("cacheKeyQueryRule", PyVal.str cache_query)]
  let new_origin :=
    if truthy header then
      new_origin ++ [("header", PyVal.str (header.getD ""))]
    else new_origin
  if origin_type = "OBJECT_STORAGE" then
    if truthy bucket_name then
      let new_origin :=
        new_origin ++ [("bucketName", PyVal.str (bucket_name.getD ""))]
      let new_origin :=
        if truthy file_extensions then
          new_origin ++ [("fileExtension", PyVal.str (file_extensions.getD ""))]
        else new_origin
      Except.ok new_origin
    else
      Except.error (PyErr.softLayerError
        "Bucket name is required when the origin type is OBJECT_STORAGE")
  else
    Except.ok new_origin

/-- Embeds `CDNManager.add_origin`: build and validate the record, then
call `createOriginPath` and return element 0 of its response; a validation
failure raises before any remote call (call count 0). -/
def add_origin (createOriginPath : List (String × PyVal) → List PyVal)
    (unique_id : PyVal) (path origin_address origin_type : String)
    (header : Option String) (port : Int) (protocol : String)
    (bucket_name file_extensions : Option String)
    (optimize_for cache_query : String) : Except PyErr PyVal × Nat :=
  match add_origin_record unique_id path origin_address origin_type header
      port protocol bucket_name file_extensions optimize_for cache_query with
  | Except.error e => (Except.error e, 0)
  | Except.ok r => unwrapCall (createOriginPath r)

/-- Embeds `CDNManager.remove_origin`: forwards to `deleteOriginPath` and
returns its raw acknowledgement value unchanged. -/
def remove_origin (deleteOriginPath : String → String → PyVal)
    (unique_id path : String) : PyVal :=
  deleteOriginPath unique_id path

/-- Embeds `CDNManager.purge_content`: forwards to `createPurge` and
returns the full response collection unchanged (no unwrapping). -/
def purge_content (createPurge : String → String → List PyVal)
    (unique_id path : String) : List PyVal :=
  createPurge unique_id path

/-- Embeds `CDNManager.get_usage_metrics`.  The date window defaults to
`[now - days, now]`; when both date strings are truthy each is parsed with
`strptime` (a parse error propagating unmodified, before any remote call);
when exactly one is truthy a `ValueError` is raised before any remote
call.  The resolved numeric timestamps are passed to
`getMappingUsageMetrics` and element 0 of the response is returned.
Following the spec model of `utils.days_to_datetime`/`utils.timestamp`,
datetimes flow through this definition already in their numeric epoch
representation, so `timestamp` is applied at the parse site. -/
def get_usage_metrics
    (getMappingUsageMetrics : String → Int → Int → String → List PyVal)
    (now : Int) (unique_id : String) (start_date end_date : Option String)
    (days : Int) (frequency : String) : Except PyErr PyVal × Nat :=
  let s0 := days_to_datetime now days
  let e0 := days_to_datetime now 0
  if truthy start_date && truthy end_date then
    match strptime (start_date.getD "") with
    | Except.error err => (Except.error err, 0)
    | Except.ok ds =>
      match strptime (end_date.getD "") with
      | Except.error err => (Except.error err, 0)
      | Except.ok de =>
          unwrapCall
            (getMappingUsageMetrics unique_id (timestamp ds) (timestamp de)
              frequency)
  else if truthy start_date != truthy end_date then
    (Except.error (PyErr.valueError
      "start_date or end_date is None, both need to be strings or None."), 0)
  else
    unwrapCall (getMappingUsageMetrics unique_id s0 e0 frequency)

/-- The default value of the `days` parameter in the source signature of
`get_usage_metrics`. -/
def get_usage_metrics_default_days : Int := 30

/-- A rendered CLI table: column headers and data rows. -/
structure Table where
  columns : List String
  rows : List (List PyVal)

/-- Python subscripting `value[key]` with a string key: a dict yields the
stored value (or `KeyError`), while subscripting a list with a string key
raises `TypeError`. -/
def getitem : PyVal → String → Except PyErr PyVal
  | PyVal.dict kvs, key =>
      match kvs.lookup key with
      | some v => Except.ok v
      | Option.none => Except.error (PyErr.keyError key)
  | PyVal.list _, _ =>
      Except.error (PyErr.typeError
        "list indices must be integers or slices, not str")
  | _, _ => Except.error (PyErr.typeError "object is not subscriptable")

/-- Embeds the purge CLI command (`SoftLayer/CLI/cdn/purge.py`): calls
`purge_content`, then subscripts the returned value with the keys `date`,
`path`, `saved` and `status` to build the single table row.  A raised
error propagates to the CLI framework (non-zero exit); a returned table is
rendered (exit 0). -/
def cli (createPurge : String → String → List PyVal)
    (unique_id path : String) : Except PyErr Table := do
  let result := PyVal.list (purge_content createPurge unique_id path)
  let d ← getitem result "date"
  let p ← getitem result "path"
  let sv ← getitem result "saved"
  let st ← getitem result "status"
  Except.ok ⟨["Date", "Path", "Saved", "Status"], [[d, p, sv, st]]⟩

/-- The arguments of `add_origin` when every optional parameter is
omitted, i.e. the default values of the source signature:
origin_type "HOST_SERVER", header None, port 80, protocol "HTTP",
bucket_name None, file_extensions None, optimize_for
"General web delivery", cache_query "include all". -/
def add_origin_record_defaults (unique_id : PyVal)
    (path origin_address : String) : Except PyErr (List (String × PyVal)) :=
  add_origin_record unique_id path origin_address "HOST_SERVER" Option.none
    80 "HTTP" Option.none Option.none "General web delivery" "include all"


/-- Claim C1 (confirmed): every call to `add_origin` with origin_type
OBJECT_STORAGE and a falsy (absent or empty) bucket_name raises
SoftLayerError "Bucket name is required when the origin type is
OBJECT_STORAGE" and makes zero remote calls (`createOriginPath` is never
invoked: the call count is 0 and the result does not depend on the
`createOriginPath` oracle). -/
theorem add_origin_object_storage_requires_bucket
    (createOriginPath : List (String × PyVal) → List PyVal)
    (unique_id : PyVal) (path origin_address : String)
    (header : Option String) (port : Int) (protocol : String)
    (bucket_name file_extensions : Option String)
    (optimize_for cache_query : String)
    (h : truthy bucket_name = false) :
    add_origin createOriginPath unique_id path origin_address
        "OBJECT_STORAGE" header port protocol bucket_name file_extensions
        optimize_for cache_query
      = (Except.error (PyErr.softLayerError
          "Bucket name is required when the origin type is OBJECT_STORAGE"),
         0) := by
  simp [add_origin, add_origin_record, h]

theorem add_origin_object_storage_requires_bucket_witness :
    truthy Option.none = false ∧
      add_origin (fun _ => [PyVal.dict []]) (PyVal.int 9779455)
          "/example" "origin.example.com" "OBJECT_STORAGE" Option.none 80
          "HTTP" Option.none Option.none "General web delivery" "include all"
        = (Except.error (PyErr.softLayerError
            "Bucket name is required when the origin type is OBJECT_STORAGE"),
           0) :=
  ⟨rfl, add_origin_object_storage_requires_bucket _ _ _ _ _ _ _ _ _ _ _ rfl⟩

/-- Claim C3 (confirmed): every call to `get_usage_metrics` where exactly
one of start_date and end_date is truthy raises ValueError "start_date or
end_date is None, both need to be strings or None." with zero remote
calls. -/
theorem get_usage_metrics_single_date_error
    (remote : String → Int → Int → String → List PyVal) (now : Int)
    (unique_id : String) (start_date end_date : Option String)
    (days : Int) (frequency : String)
    (h : truthy start_date ≠ truthy end_date) :
    get_usage_metrics remote now unique_id start_date end_date days frequency
      = (Except.error (PyErr.valueError
          "start_date or end_date is None, both need to be strings or None."),
         0) := by
  cases hs : truthy start_date <;> cases he : truthy end_date <;>
    simp_all [get_usage_metrics]

theorem get_usage_metrics_single_date_error_witness :
    truthy (some "2021-01-01 00:00:00") ≠ truthy Option.none ∧
      get_usage_metrics (fun _ _ _ _ => [PyVal.dict []]) 1700000000 "cdnId"
          (some "2021-01-01 00:00:00") Option.none 30 "aggregate"
        = (Except.error (PyErr.valueError
            "start_date or end_date is None, both need to be strings or None."),
           0) :=
  ⟨by decide, get_usage_metrics_single_date_error _ _ _ _ _ _ _ (by decide)⟩

/-- Claim C5 (confirmed, spec-modelled window helpers): when neither
start_date nor end_date is supplied, `get_usage_metrics` queries the
window `[now - days, now]` (in epoch seconds, one day = 86400 s) computed
from the wall clock `now` at call time, and with the source default
`days = 30` the window is `[now - 30 days, now]`. -/
theorem get_usage_metrics_default_window
    (remote : String → Int → Int → String → List PyVal) (now : Int)
    (unique_id : String) (start_date end_date : Option String)
    (days : Int) (frequency : String)
    (h1 : truthy start_date = false) (h2 : truthy end_date = false) :
    get_usage_metrics remote now unique_id start_date end_date days frequency
      = unwrapCall (remote unique_id (now - days * 86400) now frequency) ∧
    get_usage_metrics remote now unique_id start_date end_date
        get_usage_metrics_default_days frequency
      = unwrapCall (remote unique_id (now - 30 * 86400) now frequency) := by
  constructor <;>
    simp [get_usage_metrics, get_usage_metrics_default_days, days_to_datetime,
      h1, h2]

theorem get_usage_metrics_default_window_witness :
    truthy Option.none = false ∧
      get_usage_metrics (fun _ _ _ _ => [PyVal.dict []]) 1700000000 "cdnId"
          Option.none Option.none 7 "day"
        = unwrapCall ((fun _ _ _ _ => [PyVal.dict []]) "cdnId"
            (1700000000 - 7 * 86400) 1700000000 "day") :=
  ⟨rfl, (get_usage_metrics_default_window (fun _ _ _ _ => [PyVal.dict []])
    1700000000 "cdnId" Option.none Option.none 7 "day" rfl rfl).1⟩

/-- Claim C8 (confirmed): `get_cdn` returns the first element of a
non-empty remote lookup collection, and fails with an IndexError
(surfaced to the caller, not swallowed) when the collection is empty. -/
theorem get_cdn_first_or_index_error
    (remote : String → List PyVal) (unique_id : String) :
    (∀ x xs, remote unique_id = x :: xs →
      get_cdn remote unique_id = Except.ok x) ∧
    (remote unique_id = [] →
      get_cdn remote unique_id = Except.error PyErr.indexError) := by
  constructor
  · intro x xs h
    simp [get_cdn, h]
  · intro h
    simp [get_cdn, h]

theorem get_cdn_first_or_index_error_witness :
    get_cdn (fun _ => [PyVal.str "cdn0", PyVal.str "cdn1"]) "uid"
        = Except.ok (PyVal.str "cdn0") ∧
      get_cdn (fun _ => []) "uid" = Except.error PyErr.indexError :=
  ⟨(get_cdn_first_or_index_error _ "uid").1 _ _ rfl,
   (get_cdn_first_or_index_error _ "uid").2 rfl⟩

/-- Claim C10 (confirmed): `get_usage_metrics` distinguishes supplied
from absent dates by truthiness: with both dates equal to the empty
string it raises no error, attempts no parse and silently uses the
default window `[now - days, now]`, while one empty string together with
one non-empty string raises the "both need to be strings or None"
ValueError. -/
theorem get_usage_metrics_truthiness
    (remote : String → Int → Int → String → List PyVal) (now : Int)
    (unique_id : String) (days : Int) (frequency : String) :
    (get_usage_metrics remote now unique_id (some "") (some "") days frequency
      = unwrapCall (remote unique_id (now - days * 86400) now frequency)) ∧
    (∀ s : String, s ≠ "" →
      get_usage_metrics remote now unique_id (some "") (some s) days frequency
        = (Except.error (PyErr.valueError
            "start_date or end_date is None, both need to be strings or None."),
           0) ∧
      get_usage_metrics remote now unique_id (some s) (some "") days frequency
        = (Except.error (PyErr.valueError
            "start_date or end_date is None, both need to be strings or None."),
           0)) := by
  constructor
  · simp [get_usage_metrics, truthy, days_to_datetime]
  · intro s h
    constructor <;> simp [get_usage_metrics, truthy, h]

theorem get_usage_metrics_truthiness_witness :
    ("2021-01-01 00:00:00" : String) ≠ "" ∧
      get_usage_metrics (fun _ _ _ _ => [PyVal.dict []]) 1700000000 "uid"
          (some "") (some "2021-01-01 00:00:00") 30 "aggregate"
        = (Except.error (PyErr.valueError
            "start_date or end_date is None, both need to be strings or None."),
           0) :=
  ⟨by decide,
   ((get_usage_metrics_truthiness (fun _ _ _ _ => [PyVal.dict []]) 1700000000
      "uid" 30 "aggregate").2 "2021-01-01 00:00:00" (by decide)).1⟩

/-- Claim C2 (code bug): on a CLI purge invocation where the remote purge
service returns a collection with exactly one purge record, the command
does not select the single record: it subscripts the returned collection
itself with the string key "date", which raises TypeError (non-zero
exit) instead of rendering the record's table row and exiting 0. -/
theorem purge_cli_single_record_type_error :
    cli (fun _ _ => [PyVal.dict
        [("date", PyVal.str "2020-01-01"),
         ("path", PyVal.str "/article/file.txt"),
         ("saved", PyVal.str "1"),
         ("status", PyVal.str "SUCCESS")]])
      "9779455" "/article/file.txt"
      = Except.error (PyErr.typeError
          "list indices must be integers or slices, not str") := rfl

/-- Claim C4 (confirmed, spec-modelled `utils.timestamp`): when both
start_date and end_date are supplied, each is parsed with the fixed
format %Y-%m-%d %H:%M:%S and the numeric timestamps passed to the remote
call are exactly the parsed values' epoch representations; a parse
failure of either date fails the operation with the parse error itself,
propagated unmodified and before any remote call. -/
theorem get_usage_metrics_parses_dates
    (remote : String → Int → Int → String → List PyVal) (now : Int)
    (unique_id : String) (s e : String) (days : Int) (frequency : String)
    (hs : s ≠ "") (he : e ≠ "") :
    (∀ ds de, strptime s = Except.ok ds → strptime e = Except.ok de →
      get_usage_metrics remote now unique_id (some s) (some e) days frequency
        = unwrapCall
            (remote unique_id (timestamp ds) (timestamp de) frequency)) ∧
    (∀ err, strptime s = Except.error err →
      get_usage_metrics remote now unique_id (some s) (some e) days frequency
        = (Except.error err, 0)) ∧
    (∀ ds err, strptime s = Except.ok ds → strptime e = Except.error err →
      get_usage_metrics remote now unique_id (some s) (some e) days frequency
        = (Except.error err, 0)) := by
  have hts : truthy (some s) = true := by simp [truthy, hs]
  have hte : truthy (some e) = true := by simp [truthy, he]
  refine ⟨?_, ?_, ?_⟩
  · intro ds de h1 h2
    simp [get_usage_metrics, hts, hte, h1, h2]
  · intro err h1
    simp [get_usage_metrics, hts, hte, h1]
  · intro ds err h1 h2
    simp [get_usage_metrics, hts, hte, h1, h2]

theorem get_usage_metrics_parses_dates_witness :
    ("2021-01-01 00:00:00" : String) ≠ "" ∧
    ("2021-01-02 00:00:00" : String) ≠ "" ∧
    strptime "2021-01-01 00:00:00" = Except.ok ⟨2021, 1, 1, 0, 0, 0⟩ ∧
    strptime "2021-01-02 00:00:00" = Except.ok ⟨2021, 1, 2, 0, 0, 0⟩ ∧
    timestamp ⟨2021, 1, 1, 0, 0, 0⟩ = 1609459200 ∧
    timestamp ⟨2021, 1, 2, 0, 0, 0⟩ = 1609545600 ∧
    get_usage_metrics (fun _ _ _ _ => [PyVal.dict []]) 1700000000 "cdnId"
        (some "2021-01-01 00:00:00") (some "2021-01-02 00:00:00") 30
        "aggregate"
      = unwrapCall ((fun _ _ _ _ => [PyVal.dict []]) "cdnId"
          (timestamp ⟨2021, 1, 1, 0, 0, 0⟩) (timestamp ⟨2021, 1, 2, 0, 0, 0⟩)
          "aggregate") :=
  ⟨by decide, by decide, rfl, rfl, rfl, rfl,
   (get_usage_metrics_parses_dates (fun _ _ _ _ => [PyVal.dict []]) 1700000000
      "cdnId" "2021-01-01 00:00:00" "2021-01-02 00:00:00" 30 "aggregate"
      (by decide) (by decide)).1 ⟨2021, 1, 1, 0, 0, 0⟩ ⟨2021, 1, 2, 0, 0, 0⟩
      rfl rfl⟩

/-- Claim C6 (confirmed): the record submitted by `add_origin` contains a
fileExtension field iff origin_type is OBJECT_STORAGE and
file_extensions is truthy, in which case it equals the input; for every
non-OBJECT_STORAGE origin_type the submitted record contains neither
bucketName nor fileExtension, even when those arguments are supplied. -/
theorem add_origin_submitted_fields
    (unique_id : PyVal) (path origin_address origin_type : String)
    (header : Option String) (port : Int) (protocol : String)
    (bucket_name file_extensions : Option String)
    (optimize_for cache_query : String) :
    (∀ r, add_origin_record unique_id path origin_address origin_type header
        port protocol bucket_name file_extensions optimize_for cache_query
        = Except.ok r →
      r.lookup "fileExtension"
        = if origin_type = "OBJECT_STORAGE" ∧ truthy file_extensions = true
          then some (PyVal.str (file_extensions.getD ""))
          else Option.none) ∧
    (origin_type ≠ "OBJECT_STORAGE" →
      ∃ r, add_origin_record unique_id path origin_address origin_type header
          port protocol bucket_name file_extensions optimize_for cache_query
          = Except.ok r ∧
        r.lookup "bucketName" = Option.none ∧
        r.lookup "fileExtension" = Option.none) := by
  constructor
  · intro r hr
    by_cases ho : origin_type = "OBJECT_STORAGE" <;>
      by_cases hb : truthy bucket_name = true <;>
        by_cases hf : truthy file_extensions = true <;>
          by_cases hh : truthy header = true <;>
            simp [add_origin_record, ho, hb, hf, hh] at hr <;>
              subst hr <;>
                first
                  | (rw [if_pos ⟨ho, hf⟩]; rfl)
                  | (rw [if_neg (by simp [ho, hf])]; rfl)
  · intro ho
    by_cases hh : truthy header = true
    · refine ⟨[("uniqueId", unique_id), ("path", PyVal.str path),
        ("origin", PyVal.str origin_address),
        ("originType", PyVal.str origin_type),
        ("httpPort", PyVal.int port), ("protocol", PyVal.str protocol),
        ("performanceConfiguration", PyVal.str optimize_for),
        ("cacheKeyQueryRule", PyVal.str cache_query),
        ("header", PyVal.str (header.getD ""))], ?_, rfl, rfl⟩
      simp [add_origin_record, ho, hh]
    · refine ⟨[("uniqueId", unique_id), ("path", PyVal.str path),
        ("origin", PyVal.str origin_address),
        ("originType", PyVal.str origin_type),
        ("httpPort", PyVal.int port), ("protocol", PyVal.str protocol),
        ("performanceConfiguration", PyVal.str optimize_for),
        ("cacheKeyQueryRule", PyVal.str cache_query)], ?_, rfl, rfl⟩
      simp [add_origin_record, ho, hh]

theorem add_origin_submitted_fields_witness :
    (List.lookup "fileExtension"
        [("uniqueId", PyVal.int 9779455), ("path", PyVal.str "/example"),
         ("origin", PyVal.str "origin.example.com"),
         ("originType", PyVal.str "OBJECT_STORAGE"),
         ("httpPort", PyVal.int 80), ("protocol", PyVal.str "HTTP"),
         ("performanceConfiguration", PyVal.str "General web delivery"),
         ("cacheKeyQueryRule", PyVal.str "include all"),
         ("bucketName", PyVal.str "bucket"),
         ("fileExtension", PyVal.str "jpg")]
      = some (PyVal.str "jpg")) ∧
    (("HOST_SERVER" : String) ≠ "OBJECT_STORAGE" ∧
      ∃ r, add_origin_record (PyVal.int 9779455) "/example"
          "origin.example.com" "HOST_SERVER" Option.none 80 "HTTP"
          (some "bucket") (some "jpg") "General web delivery" "include all"
          = Except.ok r ∧
        r.lookup "bucketName" = Option.none ∧
        r.lookup "fileExtension" = Option.none) :=
  ⟨(add_origin_submitted_fields (PyVal.int 9779455) "/example"
      "origin.example.com" "OBJECT_STORAGE" Option.none 80 "HTTP"
      (some "bucket") (some "jpg") "General web delivery" "include all").1
      _ rfl,
   by decide,
   (add_origin_submitted_fields (PyVal.int 9779455) "/example"
      "origin.example.com" "HOST_SERVER" Option.none 80 "HTTP"
      (some "bucket") (some "jpg") "General web delivery" "include all").2
      (by decide)⟩

/-- Claim C7 (confirmed): `get_cdn`, `add_origin` and
`get_usage_metrics` each return the first element of the remote response
collection, whereas `purge_content` returns the full collection from the
remote purge call unchanged (no unwrapping) and `remove_origin` returns
the raw remote acknowledgement value unchanged. -/
theorem manager_unwrap_asymmetry :
    (∀ (remote : String → List PyVal) (uid : String) (x : PyVal)
        (xs : List PyVal),
      remote uid = x :: xs → get_cdn remote uid = Except.ok x) ∧
    (∀ (createOriginPath : List (String × PyVal) → List PyVal)
        (unique_id : PyVal) (path origin_address origin_type : String)
        (header : Option String) (port : Int) (protocol : String)
        (bucket_name file_extensions : Option String)
        (optimize_for cache_query : String) (r : List (String × PyVal))
        (x : PyVal) (xs : List PyVal),
      add_origin_record unique_id path origin_address origin_type header
          port protocol bucket_name file_extensions optimize_for cache_query
        = Except.ok r →
      createOriginPath r = x :: xs →
      add_origin createOriginPath unique_id path origin_address origin_type
          header port protocol bucket_name file_extensions optimize_for
          cache_query = (Except.ok x, 1)) ∧
    (∀ (remote : String → Int → Int → String → List PyVal) (now : Int)
        (uid frequency : String) (days : Int) (x : PyVal) (xs : List PyVal),
      remote uid (days_to_datetime now days) (days_to_datetime now 0)
          frequency = x :: xs →
      get_usage_metrics remote now uid Option.none Option.none days frequency
        = (Except.ok x, 1)) ∧
    (∀ (createPurge : String → String → List PyVal) (uid path : String),
      purge_content createPurge uid path = createPurge uid path) ∧
    (∀ (deleteOriginPath : String → String → PyVal) (uid path : String),
      remove_origin deleteOriginPath uid path = deleteOriginPath uid path) := by
  refine ⟨?_, ?_, ?_, ?_, ?_⟩
  · intro remote uid x xs h
    simp [get_cdn, h]
  · intro createOriginPath unique_id path origin_address origin_type header
      port protocol bucket_name file_extensions optimize_for cache_query r x
      xs h1 h2
    simp [add_origin, h1, h2, unwrapCall]
  · intro remote now uid frequency days x xs h
    simp [get_usage_metrics, truthy, h, unwrapCall]
  · intro createPurge uid path
    rfl
  · intro deleteOriginPath uid path
    rfl

theorem manager_unwrap_asymmetry_witness :
    get_cdn (fun _ => [PyVal.str "cdn0"]) "uid" = Except.ok (PyVal.str "cdn0") ∧
    add_origin (fun _ => [PyVal.str "o0"]) (PyVal.int 1) "/p" "addr"
        "HOST_SERVER" Option.none 80 "HTTP" Option.none Option.none
        "General web delivery" "include all" = (Except.ok (PyVal.str "o0"), 1) ∧
    get_usage_metrics (fun _ _ _ _ => [PyVal.str "m0"]) 1700000000 "uid"
        Option.none Option.none 30 "aggregate" = (Except.ok (PyVal.str "m0"), 1) ∧
    purge_content (fun _ _ => [PyVal.str "p0", PyVal.str "p1"]) "uid" "/p"
        = [PyVal.str "p0", PyVal.str "p1"] ∧
    remove_origin (fun _ _ => PyVal.str "ack") "uid" "/p" = PyVal.str "ack" :=
  ⟨manager_unwrap_asymmetry.1 _ _ _ _ rfl,
   manager_unwrap_asymmetry.2.1 _ (PyVal.int 1) "/p" "addr" "HOST_SERVER"
     Option.none 80 "HTTP" Option.none Option.none "General web delivery"
     "include all" _ _ _ rfl rfl,
   manager_unwrap_asymmetry.2.2.1 _ 1700000000 "uid" "aggregate" 30 _ _ rfl,
   manager_unwrap_asymmetry.2.2.2.1 _ _ _,
   manager_unwrap_asymmetry.2.2.2.2 _ _ _⟩

/-- Claim C9 (confirmed): with every optional parameter omitted (the
source defaults), the record submitted by `add_origin` carries
originType HOST_SERVER, httpPort 80, protocol HTTP,
performanceConfiguration "General web delivery", cacheKeyQueryRule
"include all" and no header key; in general the submitted record has a
header field iff the header argument is truthy, and the key is omitted
entirely otherwise. -/
theorem add_origin_defaults_and_header :
    (∀ (unique_id : PyVal) (path origin_address : String),
      ∃ r, add_origin_record_defaults unique_id path origin_address
          = Except.ok r ∧
        r.lookup "originType" = some (PyVal.str "HOST_SERVER") ∧
        r.lookup "httpPort" = some (PyVal.int 80) ∧
        r.lookup "protocol" = some (PyVal.str "HTTP") ∧
        r.lookup "performanceConfiguration"
          = some (PyVal.str "General web delivery") ∧
        r.lookup "cacheKeyQueryRule" = some (PyVal.str "include all") ∧
        r.lookup "header" = Option.none) ∧
    (∀ (unique_id : PyVal) (path origin_address origin_type : String)
        (header : Option String) (port : Int) (protocol : String)
        (bucket_name file_extensions : Option String)
        (optimize_for cache_query : String) (r : List (String × PyVal)),
      add_origin_record unique_id path origin_address origin_type header
          port protocol bucket_name file_extensions optimize_for cache_query
        = Except.ok r →
      r.lookup "header"
        = if truthy header = true then some (PyVal.str (header.getD ""))
          else Option.none) := by
  constructor
  · intro unique_id path origin_address
    exact ⟨[("uniqueId", unique_id), ("path", PyVal.str path),
      ("origin", PyVal.str origin_address),
      ("originType", PyVal.str "HOST_SERVER"),
      ("httpPort", PyVal.int 80), ("protocol", PyVal.str "HTTP"),
      ("performanceConfiguration", PyVal.str "General web delivery"),
      ("cacheKeyQueryRule", PyVal.str "include all")],
      rfl, rfl, rfl, rfl, rfl, rfl, rfl⟩
  · intro unique_id path origin_address origin_type header port protocol
      bucket_name file_extensions optimize_for cache_query r hr
    by_cases ho : origin_type = "OBJECT_STORAGE" <;>
      by_cases hb : truthy bucket_name = true <;>
        by_cases hf : truthy file_extensions = true <;>
          by_cases hh : truthy header = true <;>
            simp [add_origin_record, ho, hb, hf, hh] at hr <;>
              subst hr <;>
                first
                  | (rw [if_pos hh]; rfl)
                  | (rw [if_neg hh]; rfl)

theorem add_origin_defaults_and_header_witness :
    (∃ r, add_origin_record_defaults (PyVal.int 9779455) "/example"
        "origin.example.com" = Except.ok r ∧
      r.lookup "originType" = some (PyVal.str "HOST_SERVER") ∧
      r.lookup "httpPort" = some (PyVal.int 80) ∧
      r.lookup "protocol" = some (PyVal.str "HTTP") ∧
      r.lookup "performanceConfiguration"
        = some (PyVal.str "General web delivery") ∧
      r.lookup "cacheKeyQueryRule" = some (PyVal.str "include all") ∧
      r.lookup "header" = Option.none) ∧
    (List.lookup "header"
        [("uniqueId", PyVal.int 9779455), ("path", PyVal.str "/example"),
         ("origin", PyVal.str "origin.example.com"),
         ("originType", PyVal.str "HOST_SERVER"),
         ("httpPort", PyVal.int 80), ("protocol", PyVal.str "HTTP"),
         ("performanceConfiguration", PyVal.str "General web delivery"),
         ("cacheKeyQueryRule", PyVal.str "include all"),
         ("header", PyVal.str "X-Custom-Header")]
      = some (PyVal.str "X-Custom-Header")) :=
  ⟨add_origin_defaults_and_header.1 (PyVal.int 9779455) "/example"
     "origin.example.com",
   add_origin_defaults_and_header.2 (PyVal.int 9779455) "/example"
     "origin.example.com" "HOST_SERVER" (some "X-Custom-Header") 80 "HTTP"
     Option.none Option.none "General web delivery" "include all" _ rfl⟩

end SoftLayerCDN
